import Mathlib

/-!
Verification development for the plog logging package (plog.go).

The Go source is shallowly embedded: the `Logger` struct becomes a Lean
structure (the `sync.Mutex` field is dropped — it has no observable pure
content; mutual exclusion itself is outside this embedding), pure helper
functions become Lean functions, and the impure inputs of the emission
path are made explicit parameters:

* `Env` carries the strings that `getTimestamp()` (time.Now formatted as
  time.DateTime) and `getCall(3)` would return;
* `writeErr` carries the error that the sink's write (`fmt.Fprintf` on
  `l.output`) would report — the Go code discards the `Fprintf` result,
  which the embedding mirrors by never reading this parameter;
* the bytes handed to the sink appear in the `written` field of the
  result instead of happening as an effect.

Go `error` return values are modelled as `Option String` (`none` = nil),
with the exact message strings of the source. Go `int` is modelled as
`Int` for levels (they are compared and may be negative or huge) and as
`Nat` for the requirements bitmask (every named bit constant is a small
nonnegative value, and the bit tests `x & RequireAll != 0` agree with the
64-bit Go semantics on all nonnegative masks).
-/

namespace Plog

/-- Output requirement bitmask constants (plog.go lines 17‑22):
`RequireTimestamp = 1 << 0`. -/
def RequireTimestamp : Nat := 1

/-- Level bit of the requirements bitmask, `1 << 1`. -/
def RequireLevel : Nat := 2

/-- Caller bit of the requirements bitmask, `1 << 2`. -/
def RequireCaller : Nat := 4

/-- Union of the three requirement bits (plog.go line 21). -/
def RequireAll : Nat := RequireCaller ||| RequireLevel ||| RequireTimestamp

/-- Information level constants (plog.go lines 28‑43). -/
def LevelDebug : Int := 0

/-- Info level constant. -/
def LevelInfo : Int := 1

/-- Warn level constant. -/
def LevelWarn : Int := 2

/-- Error level constant. -/
def LevelError : Int := 3

/-- Fatal level constant. -/
def LevelFatal : Int := 4

/-- Return if given level is in range of possible values
(plog.go lines 46‑48): `level >= 0 && level <= LevelFatal`. -/
def levelRange (level : Int) : Bool :=
  decide (level ≥ 0) && decide (level ≤ LevelFatal)

/-- ANSI reset sequence (plog.go line 56). -/
def colorReset : String := "\x1b[0m"

/-- ANSI blue sequence. -/
def colorBlue : String := "\x1b[34m"

/-- ANSI green sequence. -/
def colorGreen : String := "\x1b[32m"

/-- ANSI yellow sequence. -/
def colorYellow : String := "\x1b[33m"

/-- ANSI red sequence. -/
def colorRed : String := "\x1b[31m"

/-- ANSI bold red sequence. -/
def colorBoldRed : String := "\x1b[1;31m"

/-- The Logger struct (plog.go lines 69‑87), minus the `sync.Mutex`
field. The sink `output io.Writer` is an opaque value of type `σ`. -/
structure Logger (σ : Type) where
  level : Int
  output : σ
  require : Nat
  enabled : Bool
  colored : Bool
deriving DecidableEq

/-- NewLogger (plog.go lines 98‑103): validates the level; on success
returns an enabled logger with the given configuration, otherwise the
out-of-range error and no instance. -/
def NewLogger (level : Int) (output : σ) (outputRequirements : Nat)
    (containAnsi : Bool) : Except String (Logger σ) :=
  if levelRange level then
    .ok { level := level, output := output, require := outputRequirements,
          enabled := true, colored := containAnsi }
  else
    .error "level value is out of range"

/-- SetLevel (plog.go lines 110‑118), modelled exactly as written: the
source tests `if levelRange(level)` and returns the error in THAT branch,
then assigns `l.level = level` — i.e. the range check is inverted
relative to its own doc comment. The pair is (returned error, resulting
logger state). -/
def Logger.SetLevel (l : Logger σ) (level : Int) : Option String × Logger σ :=
  if levelRange level then
    (some "level value is out of range", l)
  else
    (none, { l with level := level })

/-- getColoredLevel (plog.go lines 161‑176): Go switch rendered as an
equality chain; the default branch is the plain sentinel "INVALID". -/
def getColoredLevel (level : Int) : String :=
  if level = LevelDebug then colorBlue ++ "DEBUG" ++ colorReset
  else if level = LevelInfo then colorGreen ++ "INFO" ++ colorReset
  else if level = LevelWarn then colorYellow ++ "WARN" ++ colorReset
  else if level = LevelError then colorRed ++ "ERROR" ++ colorReset
  else if level = LevelFatal then colorBoldRed ++ "FATAL" ++ colorReset
  else "INVALID"

/-- getRegularLevel (plog.go lines 179‑194). -/
def getRegularLevel (level : Int) : String :=
  if level = LevelDebug then "DEBUG"
  else if level = LevelInfo then "INFO"
  else if level = LevelWarn then "WARN"
  else if level = LevelError then "ERROR"
  else if level = LevelFatal then "FATAL"
  else "INVALID"

/-- Environment of one emission call: the strings the impure getters
`getTimestamp()` (plog.go 197‑199) and `getCall(3)` (plog.go 206‑213)
would return at that moment. -/
structure Env where
  timestamp : String
  caller : String
deriving DecidableEq

/-- One argument to Go's fmt.Sprintf, restricted to the kinds the
repository's claims exercise. -/
inductive FmtArg where
  | int (n : Int)
  | str (s : String)
deriving DecidableEq

/-- Rendering of one fmt.Sprintf argument. -/
def FmtArg.render : FmtArg → String
  | .int n => toString n
  | .str s => s

/-- Model of Go fmt.Sprintf substitution over the characters of the
format string, covering the verbs %d, %s, %v and the escape %% (the only
ones this development evaluates concretely). -/
def sprintfAux : List Char → List FmtArg → List Char
  | [], _ => []
  | '%' :: '%' :: rest, attrs => '%' :: sprintfAux rest attrs
  | '%' :: v :: rest, a :: attrs =>
      if v = 'd' ∨ v = 's' ∨ v = 'v' then
        (FmtArg.render a).data ++ sprintfAux rest attrs
      else '%' :: v :: sprintfAux rest attrs
  | '%' :: v :: rest, [] => '%' :: v :: sprintfAux rest []
  | c :: rest, attrs => c :: sprintfAux rest attrs

/-- String-level wrapper of `sprintfAux`, modelling fmt.Sprintf. -/
def sprintf (format : String) (attrs : List FmtArg) : String :=
  ⟨sprintfAux format.data attrs⟩

/-- Result of one call of the emission routine: the Go return value
(`err`, none = nil) and the bytes handed to the sink, if any. -/
structure PrintResult where
  err : Option String
  written : Option String
deriving DecidableEq

/-- The `stats` prefix-composition block of print (plog.go lines
227‑243): default empty string; when any requirement bit is present,
start from "-" and left-prepend caller, then timestamp, then level. -/
def Logger.stats (l : Logger σ) (env : Env) (level : Int) : String :=
  if l.require &&& RequireAll ≠ 0 then
    let s1 := "-"
    let s2 := if l.require &&& RequireCaller ≠ 0 then
        env.caller ++ " " ++ s1 else s1
    let s3 := if l.require &&& RequireTimestamp ≠ 0 then
        "[" ++ env.timestamp ++ "] " ++ s2 else s2
    if l.require &&& RequireLevel ≠ 0 then
      if l.colored then "[" ++ getColoredLevel level ++ "] " ++ s3
      else "[" ++ getRegularLevel level ++ "] " ++ s3
    else s3
  else ""

/-- print (plog.go lines 220‑253): the enabled gate, then the level gate
(`l.level > level` suppresses), then the write of
`fmt.Sprintf("%s %s\n", stats, fmt.Sprintf(format, attrs...))`. The Go
code discards the result of `fmt.Fprintf` and returns nil:
correspondingly `writeErr` (the error the sink would report) is never
read and `err` is `none` on every path that reaches the write. -/
def Logger.print (l : Logger σ) (env : Env) (writeErr : Option String)
    (level : Int) (format : String) (attrs : List FmtArg) : PrintResult :=
  if !l.enabled then
    { err := some "logger is disabled", written := none }
  else if l.level > level then
    { err := some "logger ingores given level logs", written := none }
  else
    { err := none,
      written := some (l.stats env level ++ " " ++ sprintf format attrs ++ "\n") }

/-- Log (plog.go lines 262‑264): the level-parameterized entry point,
a pass-through to print. -/
def Logger.Log (l : Logger σ) (env : Env) (writeErr : Option String)
    (level : Int) (format : String) (attrs : List FmtArg) : PrintResult :=
  l.print env writeErr level format attrs

/-- Debug (plog.go lines 273‑275). -/
def Logger.Debug (l : Logger σ) (env : Env) (writeErr : Option String)
    (format : String) (attrs : List FmtArg) : PrintResult :=
  l.print env writeErr LevelDebug format attrs

/-- Info (plog.go lines 284‑286). -/
def Logger.Info (l : Logger σ) (env : Env) (writeErr : Option String)
    (format : String) (attrs : List FmtArg) : PrintResult :=
  l.print env writeErr LevelInfo format attrs

/-- Warn (plog.go lines 295‑297). -/
def Logger.Warn (l : Logger σ) (env : Env) (writeErr : Option String)
    (format : String) (attrs : List FmtArg) : PrintResult :=
  l.print env writeErr LevelWarn format attrs

/-- Error (plog.go lines 306‑308). -/
def Logger.Error (l : Logger σ) (env : Env) (writeErr : Option String)
    (format : String) (attrs : List FmtArg) : PrintResult :=
  l.print env writeErr LevelError format attrs

/-- Fatal (plog.go lines 317‑320): calls print at LevelFatal, discards
its returned error, then `os.Exit(0)`. The result is (bytes written to
the sink if any, exit status). -/
def Logger.Fatal (l : Logger σ) (env : Env) (writeErr : Option String)
    (format : String) (attrs : List FmtArg) : Option String × Nat :=
  ((l.print env writeErr LevelFatal format attrs).written, 0)

/-- Shape of Go's time.DateTime layout "2006-01-02 15:04:05": four
digits, dash, two digits, dash, two digits, space, two digits, colon,
two digits, colon, two digits — the shape `getTimestamp()` always
produces and the shape the end-to-end example's pattern requires. -/
def dateTimeShape (cs : List Char) : Bool :=
  match cs with
  | [y1, y2, y3, y4, da1, mo1, mo2, da2, dd1, dd2, sp,
     hh1, hh2, co1, mi1, mi2, co2, se1, se2] =>
      y1.isDigit && y2.isDigit && y3.isDigit && y4.isDigit && da1 == '-' &&
      mo1.isDigit && mo2.isDigit && da2 == '-' && dd1.isDigit && dd2.isDigit &&
      sp == ' ' && hh1.isDigit && hh2.isDigit && co1 == ':' &&
      mi1.isDigit && mi2.isDigit && co2 == ':' && se1.isDigit && se2.isDigit
  | _ => false

/-- Fixture environment for concrete evaluations: a timestamp of the
DateTime shape and a caller string of the `file:line (func)` shape. -/
def sampleEnv : Env :=
  { timestamp := "2025-01-02 03:04:05", caller := "main.go:10 (main.main)" }

/-- Fixture: enabled Info-level logger with no metadata bits. -/
def loggerPlain : Logger Unit :=
  { level := LevelInfo, output := (), require := 0,
    enabled := true, colored := false }

/-- Fixture: enabled Warn-level logger with no metadata bits. -/
def loggerWarnNoMask : Logger Unit :=
  { level := LevelWarn, output := (), require := 0,
    enabled := true, colored := false }

/-- Fixture: enabled Debug-level logger requesting only the caller. -/
def loggerCallerOnly : Logger Unit :=
  { level := LevelDebug, output := (), require := RequireCaller,
    enabled := true, colored := false }

/-- Fixture: enabled Debug-level logger requesting only the level. -/
def loggerLevelOnly : Logger Unit :=
  { level := LevelDebug, output := (), require := RequireLevel,
    enabled := true, colored := false }

/-- Fixture: disabled logger. -/
def loggerOff : Logger Unit :=
  { level := LevelDebug, output := (), require := 0,
    enabled := false, colored := false }

/-- Fixture: the logger of the end-to-end example — minimum level Info,
mask Level|Timestamp, no color. -/
def loggerC9 : Logger Unit :=
  { level := LevelInfo, output := (), require := RequireLevel ||| RequireTimestamp,
    enabled := true, colored := false }

/-- Appending strings appends their character data. -/
theorem string_data_append (s t : String) : (s ++ t).data = s.data ++ t.data := rfl

/-- String append is associative. -/
theorem string_append_assoc (a b c : String) : a ++ b ++ c = a ++ (b ++ c) := by
  cases a; cases b; cases c
  exact congrArg String.mk (List.append_assoc _ _ _)

/-- The empty string is a left identity of append. -/
theorem string_empty_append (s : String) : "" ++ s = s := by
  cases s
  exact congrArg String.mk (List.nil_append _)

/-- Levels outside 0..4 hit the default branch of getRegularLevel. -/
theorem getRegularLevel_invalid (level : Int) (h : levelRange level = false) :
    getRegularLevel level = "INVALID" := by
  have h' : ¬ (0 ≤ level ∧ level ≤ 4) := by
    intro hc
    simp [levelRange, LevelFatal, hc.1, hc.2] at h
  simp only [getRegularLevel, LevelDebug, LevelInfo, LevelWarn, LevelError, LevelFatal]
  rw [if_neg (by omega), if_neg (by omega), if_neg (by omega),
    if_neg (by omega), if_neg (by omega)]

/-- Levels outside 0..4 hit the default branch of getColoredLevel as
well, which is the same plain sentinel with no ANSI decoration. -/
theorem getColoredLevel_invalid (level : Int) (h : levelRange level = false) :
    getColoredLevel level = "INVALID" := by
  have h' : ¬ (0 ≤ level ∧ level ≤ 4) := by
    intro hc
    simp [levelRange, LevelFatal, hc.1, hc.2] at h
  simp only [getColoredLevel, LevelDebug, LevelInfo, LevelWarn, LevelError, LevelFatal]
  rw [if_neg (by omega), if_neg (by omega), if_neg (by omega),
    if_neg (by omega), if_neg (by omega)]

/-- A mask with the Level bit set has some bit of RequireAll set. -/
theorem mask_level_bit_all (x : Nat) (h : x &&& RequireLevel ≠ 0) :
    x &&& RequireAll ≠ 0 := by
  intro h0
  apply h
  have key : x &&& RequireAll &&& RequireLevel = x &&& RequireLevel := by
    rw [Nat.and_assoc]
    have h1 : RequireAll &&& RequireLevel = RequireLevel := by decide
    rw [h1]
  rw [← key, h0, Nat.zero_and]

/-- Strings of the DateTime shape contain no newline character. -/
theorem dateTimeShape_no_newline (cs : List Char) (h : dateTimeShape cs = true) :
    '\n' ∉ cs := by
  unfold dateTimeShape at h
  split at h
  · rename_i y1 y2 y3 y4 da1 mo1 mo2 da2 dd1 dd2 sp hh1 hh2 co1 mi1 mi2 co2 se1 se2
    simp only [Bool.and_eq_true, beq_iff_eq] at h
    intro hmem
    simp only [List.mem_cons, List.not_mem_nil, or_false] at hmem
    rcases hmem with rfl | rfl | rfl | rfl | rfl | rfl | rfl | rfl | rfl | rfl |
      rfl | rfl | rfl | rfl | rfl | rfl | rfl | rfl | rfl <;>
      simp [show ('\n').isDigit = false from by decide,
        show ('\n' : Char) ≠ '-' from by decide,
        show ('\n' : Char) ≠ ' ' from by decide,
        show ('\n' : Char) ≠ ':' from by decide] at h
  · simp at h

/-- Strings of the DateTime shape have newline count zero. -/
theorem dateTimeShape_count (cs : List Char) (h : dateTimeShape cs = true) :
    List.count '\n' cs = 0 :=
  List.count_eq_zero.mpr (dateTimeShape_no_newline cs h)

/-- Flat form of the stats block: the prefix is, in fixed order, the
optional bracketed level, the optional bracketed timestamp, the optional
UNbracketed caller, then the "-" terminator. -/
theorem stats_flat (l : Logger σ) (env : Env) (level : Int)
    (hmask : l.require &&& RequireAll ≠ 0) :
    l.stats env level =
      (if l.require &&& RequireLevel ≠ 0 then
        "[" ++ (if l.colored then getColoredLevel level else getRegularLevel level) ++ "] "
      else "")
      ++ (if l.require &&& RequireTimestamp ≠ 0 then "[" ++ env.timestamp ++ "] " else "")
      ++ (if l.require &&& RequireCaller ≠ 0 then env.caller ++ " " else "")
      ++ "-" := by
  unfold Logger.stats
  rw [if_pos hmask]
  by_cases hl : l.require &&& RequireLevel ≠ 0 <;>
    by_cases ht : l.require &&& RequireTimestamp ≠ 0 <;>
      by_cases hc : l.require &&& RequireCaller ≠ 0 <;>
        cases hcol : l.colored <;>
          simp [hl, ht, hc, hcol, string_append_assoc, string_empty_append]

/-- C1: the claim says SetLevel rejects levels outside 0..4 with the
InvalidLevel error leaving state unchanged and accepts levels inside
0..4. The source (plog.go 110‑118) does the exact opposite — its
`if levelRange(level)` guard is inverted, contradicting its own doc
comment ("In case of level being out of range, return error and do not
change logger in any way"): the in-range level 2 is rejected unchanged,
while the out-of-range levels 5 and -1 are accepted and installed. -/
theorem setLevel_inverted_check :
    loggerPlain.SetLevel 2 = (some "level value is out of range", loggerPlain)
    ∧ loggerPlain.SetLevel 5 = (none, { loggerPlain with level := 5 })
    ∧ loggerPlain.SetLevel (-1) = (none, { loggerPlain with level := -1 }) := by
  refine ⟨?_, ?_, ?_⟩ <;> decide

/-- C2 counterexample: an emission that passes the enabled and level
gates while the sink write fails ("write failed") still returns nil
(err = none) and not the sink's error — the source discards the result
of fmt.Fprintf (plog.go 246‑252). -/
theorem print_swallows_write_error_cex :
    loggerPlain.enabled = true
    ∧ (loggerPlain.print sampleEnv (some "write failed") LevelInfo "x" []).err = none
    ∧ (loggerPlain.print sampleEnv (some "write failed") LevelInfo "x" []).written ≠ none := by
  refine ⟨rfl, ?_, ?_⟩ <;> decide

/-- C2 amended: whenever an emission passes the enabled and level gates,
the internal print routine returns success unconditionally; the sink's
write error is discarded and never propagated to the caller. -/
theorem print_discards_write_error (l : Logger σ) (env : Env)
    (writeErr : Option String) (level : Int) (format : String)
    (attrs : List FmtArg) (hen : l.enabled = true) (hlev : l.level ≤ level) :
    (l.print env writeErr level format attrs).err = none := by
  unfold Logger.print
  rw [if_neg (by simp [hen]), if_neg (by omega)]

/-- C2 amended, witness at a concrete failing sink. -/
theorem print_discards_write_error_witness :
    (loggerPlain.print sampleEnv (some "write failed") LevelInfo "x" []).err = none :=
  print_discards_write_error loggerPlain sampleEnv (some "write failed")
    LevelInfo "x" [] rfl (by decide)

/-- C3 counterexample: with a mask carrying none of the three bits the
emitted line is a space followed by the body — it does NOT begin with
the "-" marker: the source only initializes stats to "-" inside the
`require & RequireAll != 0` branch (plog.go 228‑229), so an empty mask
leaves stats as the empty string. -/
theorem no_marker_when_mask_empty_cex :
    (loggerPlain.print sampleEnv none LevelInfo "msg" []).written = some " msg\n"
    ∧ (" msg\n").data.take 2 ≠ ("- ").data := by
  refine ⟨?_, ?_⟩ <;> decide

/-- C3 amended: for every metadata mask in which none of the three bits
is set, a non-filtered emission on an enabled logger writes the line
with an EMPTY prefix: a single space, then the formatted body, then the
newline — no "-" marker is emitted. -/
theorem empty_mask_line (l : Logger σ) (env : Env) (we : Option String)
    (level : Int) (format : String) (attrs : List FmtArg)
    (hen : l.enabled = true) (hlev : l.level ≤ level)
    (hmask : l.require &&& RequireAll = 0) :
    l.print env we level format attrs
      = { err := none, written := some (" " ++ sprintf format attrs ++ "\n") } := by
  unfold Logger.print Logger.stats
  rw [if_neg (by simp [hen]), if_neg (by omega),
    if_neg (show ¬ l.require &&& RequireAll ≠ 0 from fun hc => hc hmask),
    string_empty_append]

/-- C3 amended, witness: mask 0 yields the line " msg\n". -/
theorem empty_mask_line_witness :
    loggerPlain.print sampleEnv none LevelInfo "msg" []
      = { err := none, written := some (" " ++ sprintf "msg" [] ++ "\n") } :=
  empty_mask_line loggerPlain sampleEnv none LevelInfo "msg" [] rfl
    (by decide) (by decide)

/-- C4 counterexample: at the boundary L1 = L2 = Warn the claim predicts
LevelFiltered and no output, but the source filters only on
`l.level > level` (plog.go 224), so emission at exactly the minimum
level succeeds and writes. -/
theorem equal_level_not_filtered_cex :
    NewLogger LevelWarn () 0 false = .ok loggerWarnNoMask
    ∧ (loggerWarnNoMask.Log sampleEnv none LevelWarn "x" []).err = none
    ∧ (loggerWarnNoMask.Log sampleEnv none LevelWarn "x" []).written = some " x\n" := by
  refine ⟨rfl, ?_, ?_⟩ <;> decide

/-- C4 amended: for all valid levels L1 strictly below L2, a logger
constructed with minimum level L2 on which Log is called at L1 produces
no sink output and returns the level-filtered error. -/
theorem lower_level_filtered (L1 L2 : Int) (out : σ) (req : Nat) (col : Bool)
    (env : Env) (we : Option String) (format : String) (attrs : List FmtArg)
    (l : Logger σ) (h1 : levelRange L1 = true) (h2 : levelRange L2 = true)
    (hlt : L1 < L2) (hmk : NewLogger L2 out req col = .ok l) :
    (l.Log env we L1 format attrs).err = some "logger ingores given level logs"
    ∧ (l.Log env we L1 format attrs).written = none := by
  unfold NewLogger at hmk
  rw [if_pos h2] at hmk
  cases hmk
  unfold Logger.Log Logger.print
  rw [if_neg (by simp), if_pos (by exact hlt)]
  exact ⟨rfl, rfl⟩

/-- C4 amended, witness: Debug below a Warn-level logger is filtered. -/
theorem lower_level_filtered_witness :
    (loggerWarnNoMask.Log sampleEnv none LevelDebug "x" []).err
      = some "logger ingores given level logs"
    ∧ (loggerWarnNoMask.Log sampleEnv none LevelDebug "x" []).written = none :=
  lower_level_filtered LevelDebug LevelWarn () 0 false sampleEnv none "x" []
    loggerWarnNoMask (by decide) (by decide) (by decide) rfl

/-- C5 counterexample: with only the Caller bit set, the caller segment
appears UNbracketed (`getCall(3)` is prepended bare with a space,
plog.go 231), refuting "each present field wrapped as [field]". -/
theorem caller_unbracketed_cex :
    (loggerCallerOnly.print sampleEnv none LevelDebug "msg" []).written
      = some "main.go:10 (main.main) - msg\n"
    ∧ (loggerCallerOnly.print sampleEnv none LevelDebug "msg" []).written
      ≠ some "[main.go:10 (main.main)] - msg\n" := by
  refine ⟨?_, ?_⟩ <;> decide

/-- C5 amended: when at least one metadata bit is set, the emitted line
is, in fixed order: the Level field wrapped as [field] (if requested),
the Timestamp field wrapped as [field] (if requested), the Caller field
UNwrapped followed by a space (if requested), then the literal separator
"-", a space, and the message body. -/
theorem print_metadata_order (l : Logger σ) (env : Env) (we : Option String)
    (level : Int) (format : String) (attrs : List FmtArg)
    (hen : l.enabled = true) (hlev : l.level ≤ level)
    (hmask : l.require &&& RequireAll ≠ 0) :
    l.print env we level format attrs
      = { err := none,
          written := some (
            (if l.require &&& RequireLevel ≠ 0 then
              "[" ++ (if l.colored then getColoredLevel level else getRegularLevel level) ++ "] "
            else "")
            ++ (if l.require &&& RequireTimestamp ≠ 0 then "[" ++ env.timestamp ++ "] " else "")
            ++ (if l.require &&& RequireCaller ≠ 0 then env.caller ++ " " else "")
            ++ "-" ++ " " ++ sprintf format attrs ++ "\n") } := by
  unfold Logger.print
  rw [if_neg (by simp [hen]), if_neg (by omega), stats_flat l env level hmask]

/-- C5 amended, witness at the caller-only mask. -/
theorem print_metadata_order_witness :
    loggerCallerOnly.print sampleEnv none LevelDebug "msg" []
      = { err := none, written := some "main.go:10 (main.main) - msg\n" } := by
  have h := print_metadata_order loggerCallerOnly sampleEnv none LevelDebug
    "msg" [] rfl (by decide) (by decide)
  rw [h]
  decide

/-- C6: on every emission the disabled error appears exactly when
enabled is false (and this gate precedes level filtering — its message
wins even when the level is also below the minimum), otherwise the
filtered error appears exactly when the level is strictly below the
minimum; in both error cases nothing is handed to the sink. The
embedded print is a pure function of the logger, so no field changes. -/
theorem print_gates (l : Logger σ) (env : Env) (we : Option String)
    (level : Int) (format : String) (attrs : List FmtArg) :
    ((l.print env we level format attrs).err = some "logger is disabled"
      ↔ l.enabled = false)
    ∧ (l.enabled = true →
        ((l.print env we level format attrs).err = some "logger ingores given level logs"
          ↔ level < l.level))
    ∧ (l.enabled = false ∨ level < l.level →
        (l.print env we level format attrs).written = none) := by
  unfold Logger.print
  cases hen : l.enabled
  · simp
  · have hsne : ("logger ingores given level logs" : String)
        ≠ "logger is disabled" := by decide
    by_cases hl : l.level > level
    · have hl' : level < l.level := hl
      simp [hl, hl', hsne]
    · have hge : ¬ level < l.level := hl
      simp [hl, hge]

/-- C6 witness: a disabled logger reports the disabled error; an enabled
Warn logger reports the filtered error for an Info emission. -/
theorem print_gates_witness :
    (loggerOff.print sampleEnv none LevelError "x" []).err = some "logger is disabled"
    ∧ (loggerWarnNoMask.print sampleEnv none LevelInfo "x" []).err
      = some "logger ingores given level logs" :=
  ⟨(print_gates loggerOff sampleEnv none LevelError "x" []).1.mpr rfl,
    ((print_gates loggerWarnNoMask sampleEnv none LevelInfo "x" []).2.1 rfl).mpr
      (by decide)⟩

/-- C7: NewLogger with a level in 0..4 returns an enabled logger
carrying the given level, sink, metadata mask and color mode with no
error; with a level outside 0..4 it returns the out-of-range error and
no instance. -/
theorem newLogger_spec (level : Int) (out : σ) (req : Nat) (col : Bool) :
    (levelRange level = true →
      NewLogger level out req col
        = .ok { level := level, output := out, require := req,
                enabled := true, colored := col })
    ∧ (levelRange level = false →
      NewLogger level out req col = .error "level value is out of range") := by
  constructor <;> intro h <;> simp [NewLogger, h]

/-- C7 witness: level 1 succeeds with the configured instance; level 5
fails with the out-of-range error. -/
theorem newLogger_spec_witness :
    NewLogger LevelInfo () (RequireLevel ||| RequireTimestamp) false = .ok loggerC9
    ∧ NewLogger 5 () 0 true
      = (.error "level value is out of range" : Except String (Logger Unit)) :=
  ⟨(newLogger_spec LevelInfo () (RequireLevel ||| RequireTimestamp) false).1 (by decide),
    (newLogger_spec 5 () 0 true).2 (by decide)⟩

/-- C8: Fatal hands LevelFatal to the emission routine, discards its
returned error, and unconditionally terminates with exit status 0 — the
status is 0 and the sink bytes are exactly those of the discarded print
call, in every configuration: also when the logger is disabled, when
even LevelFatal is below the minimum, and when the sink write fails. -/
theorem fatal_spec (l : Logger σ) (env : Env) (we : Option String)
    (format : String) (attrs : List FmtArg) :
    (l.Fatal env we format attrs).2 = 0
    ∧ (l.Fatal env we format attrs).1 = (l.print env we LevelFatal format attrs).written
    ∧ (l.enabled = false → l.Fatal env we format attrs = (none, 0))
    ∧ (l.enabled = true → l.level > LevelFatal → l.Fatal env we format attrs = (none, 0)) := by
  refine ⟨rfl, rfl, ?_, ?_⟩
  · intro h
    unfold Logger.Fatal Logger.print
    simp [h]
  · intro h1 h2
    unfold Logger.Fatal Logger.print
    simp [h1, h2]

/-- C8 witness: a disabled logger still terminates with status 0 and no
output. -/
theorem fatal_spec_witness :
    loggerOff.Fatal sampleEnv none "x" [] = (none, 0) :=
  (fatal_spec loggerOff sampleEnv none "x" []).2.2.1 rfl

/-- C10: the emission path never validates its level argument: on an
enabled logger any integer level at or above the minimum (also 100) is
written and Log returns nil; and when the Level bit is set an
out-of-range level renders the sentinel label INVALID (the colored and
the plain lookup both fall to the same undecorated default). -/
theorem print_no_level_validation (l : Logger σ) (env : Env) (we : Option String)
    (level : Int) (format : String) (attrs : List FmtArg)
    (hen : l.enabled = true) (hlev : l.level ≤ level) :
    (l.Log env we level format attrs).err = none
    ∧ (l.Log env we level format attrs).written
      = some (l.stats env level ++ " " ++ sprintf format attrs ++ "\n")
    ∧ (levelRange level = false → l.require &&& RequireLevel ≠ 0 →
        ∃ rest, (l.Log env we level format attrs).written
          = some ("[" ++ "INVALID" ++ "] " ++ rest)) := by
  have hprint : l.Log env we level format attrs
      = { err := none,
          written := some (l.stats env level ++ " " ++ sprintf format attrs ++ "\n") } := by
    unfold Logger.Log Logger.print
    rw [if_neg (by simp [hen]), if_neg (by omega)]
  refine ⟨by rw [hprint], by rw [hprint], ?_⟩
  intro hrange hbit
  rw [hprint, stats_flat l env level (mask_level_bit_all l.require hbit),
    if_pos hbit, getColoredLevel_invalid level hrange,
    getRegularLevel_invalid level hrange, ite_self]
  simp only [string_append_assoc, Option.some.injEq]
  exact ⟨_, rfl⟩

/-- C10 witness: level 100 on an enabled Debug logger with the Level bit
set writes a line headed by the INVALID sentinel and returns nil. -/
theorem print_no_level_validation_witness :
    (loggerLevelOnly.Log sampleEnv none 100 "x" []).err = none
    ∧ ∃ rest, (loggerLevelOnly.Log sampleEnv none 100 "x" []).written
      = some ("[" ++ "INVALID" ++ "] " ++ rest) := by
  have h := print_no_level_validation loggerLevelOnly sampleEnv none 100 "x" []
    rfl (by decide)
  exact ⟨h.1, h.2.2 (by decide) (by decide)⟩

/-- C9: a logger built with minimum level Info, mask Level|Timestamp and
no color, on Info("value=%d", 42), writes exactly the line
"[INFO] [" ++ timestamp ++ "] - value=42" with a single terminating
newline, for every timestamp of the DateTime digit shape. -/
theorem info_example (ts caller : String) (we : Option String)
    (h : dateTimeShape ts.data = true) :
    NewLogger LevelInfo () (RequireLevel ||| RequireTimestamp) false = .ok loggerC9
    ∧ loggerC9.Info ⟨ts, caller⟩ we "value=%d" [.int 42]
      = { err := none, written := some ("[INFO] [" ++ ts ++ "] - value=42\n") }
    ∧ List.count '\n' ("[INFO] [" ++ ts ++ "] - value=42\n").data = 1 := by
  refine ⟨rfl, ?_, ?_⟩
  · have hs : sprintf "value=%d" [.int 42] = "value=42" := by decide
    show loggerC9.print ⟨ts, caller⟩ we LevelInfo "value=%d" [.int 42] = _
    unfold Logger.print
    rw [if_neg (show ¬ ((!loggerC9.enabled) = true) from by decide),
      if_neg (show ¬ (loggerC9.level > LevelInfo) from by decide),
      stats_flat loggerC9 ⟨ts, caller⟩ LevelInfo (by decide), hs,
      if_pos (show loggerC9.require &&& RequireLevel ≠ 0 from by decide),
      if_pos (show loggerC9.require &&& RequireTimestamp ≠ 0 from by decide),
      if_neg (show ¬ loggerC9.require &&& RequireCaller ≠ 0 from by decide),
      if_neg (show ¬ (loggerC9.colored = true) from by decide),
      show getRegularLevel LevelInfo = "INFO" from by decide]
    apply congrArg (fun s => PrintResult.mk none (some s))
    apply String.ext
    simp only [string_data_append,
      show "[".data = ['['] from rfl,
      show "INFO".data = ['I', 'N', 'F', 'O'] from rfl,
      show "] ".data = [']', ' '] from rfl,
      show "-".data = ['-'] from rfl,
      show " ".data = [' '] from rfl,
      show "".data = ([] : List Char) from rfl,
      show "value=42".data = ['v', 'a', 'l', 'u', 'e', '=', '4', '2'] from rfl,
      show "\n".data = ['\n'] from rfl,
      show "[INFO] [".data = ['[', 'I', 'N', 'F', 'O', ']', ' ', '['] from rfl,
      show "] - value=42\n".data
        = [']', ' ', '-', ' ', 'v', 'a', 'l', 'u', 'e', '=', '4', '2', '\n'] from rfl,
      List.cons_append, List.nil_append, List.append_nil, List.append_assoc]
  · rw [string_data_append, string_data_append,
      List.count_append, List.count_append, dateTimeShape_count ts.data h]
    decide

/-- C9 witness at the fixture timestamp. -/
theorem info_example_witness :
    NewLogger LevelInfo () (RequireLevel ||| RequireTimestamp) false = .ok loggerC9
    ∧ loggerC9.Info sampleEnv none "value=%d" [.int 42]
      = { err := none,
          written := some ("[INFO] [" ++ "2025-01-02 03:04:05" ++ "] - value=42\n") }
    ∧ List.count '\n' ("[INFO] [" ++ "2025-01-02 03:04:05" ++ "] - value=42\n").data = 1 :=
  info_example "2025-01-02 03:04:05" "main.go:10 (main.main)" none (by decide)

end Plog
